import Mathlib

/-!
Shallow embedding of the rpip resumable-download tool (src/rpip/main.py).

Files are modelled as a map from filename to optional byte content; the
HTTP transport (urllib), the external resolver and installer (pip
subprocesses), the external download tools and the hash library (hashlib)
are external collaborators, modelled as parameters supplied by an
environment record.  Every function below is a direct translation of the
Python function of the same name.
-/

namespace Rpip

/-- Bytes of a file, as a list of naturals. -/
abbrev Bytes := List Nat

/-- The filesystem: a map from filename to content; none means the file
does not exist. -/
abbrev FS := String → Option Bytes

/-- Write a file (creating or truncating it). -/
def fsSet (fs : FS) (fn : String) (b : Bytes) : FS :=
  fun n => if n = fn then some b else fs n

/-- Remove a file. -/
def fsDel (fs : FS) (fn : String) : FS :=
  fun n => if n = fn then none else fs n

/-- os.path.exists. -/
def fsExists (fs : FS) (fn : String) : Bool :=
  (fs fn).isSome

/-- Result of urlopen on a request: a successful response carrying an
optional Content-Range total size, a Content-Length and the body that the
chunked read loop will deliver; a response whose body read fails partway
(okThenFail: the listed bytes are written, then an exception is raised);
an HTTPError with a status code; or a URLError (network failure). -/
inductive UrlopenResult where
  | ok (contentRange : Option Nat) (contentLength : Nat) (body : Bytes)
  | okThenFail (contentRange : Option Nat) (contentLength : Nat) (body : Bytes)
  | httpError (code : Nat)
  | urlError
deriving DecidableEq

/-- The remote server: a function of the URL and the requested resume
offset (0 means no Range header was sent, since the code only sends a
Range header when resume_pos > 0). -/
abbrev Server := String → Nat → UrlopenResult

/-- Outcome of the download path: normal return, or sys.exit(code)
(which, being a SystemExit, escapes every `except` clause of
install_single_package and main). -/
inductive TransferOutcome where
  | success
  | sysExit (code : Nat)
deriving DecidableEq

/-- resume_pos in download_with_python: size of the target file when it
exists, else 0. -/
def resumePos (fs : FS) (fn : String) : Nat :=
  match fs fn with
  | some b => b.length
  | none => 0

/-- download_with_python (src/rpip/main.py lines 81-168).  Sends a Range
header iff a partial file of positive size exists.  On a response:
if a range was requested and the response has a Content-Range header the
file is opened in append mode; if the Content-Range header is absent the
resume is abandoned (resume_pos reset to 0, mode reset to overwrite).
HTTPError 416 returns success with no write; every other HTTPError,
URLError or mid-stream exception calls sys.exit(1).  The 8 KiB chunk
loop writes the delivered body sequentially, which equals appending the
whole body. -/
def download_with_python (server : Server) (url fn : String) (fs : FS) :
    TransferOutcome × FS :=
  let rp := resumePos fs fn
  let existing : Bytes := (fs fn).getD []
  match server url rp with
  | .ok cr _cl body =>
      let base := if 0 < rp ∧ cr = none then [] else existing
      (.success, fsSet fs fn (base ++ body))
  | .okThenFail cr _cl body =>
      let base := if 0 < rp ∧ cr = none then [] else existing
      (.sysExit 1, fsSet fs fn (base ++ body))
  | .httpError c => if c = 416 then (.success, fs) else (.sysExit 1, fs)
  | .urlError => (.sysExit 1, fs)

/-- The four entries of DOWNLOADER_PREFERENCE. -/
inductive Downloader where
  | aria2c
  | wget
  | curl
  | python
deriving DecidableEq

/-- download_resumable (lines 170-206): dispatch to the native Python
downloader or to an external tool subprocess.  An external tool is
modelled by the environment as the content its successful invocation
leaves at the target path (none models a non-zero exit status, on which
the code calls sys.exit(1)). -/
def download_resumable (server : Server)
    (ext : Downloader → String → String → Option Bytes)
    (url fn : String) (dl : Downloader) (fs : FS) : TransferOutcome × FS :=
  match dl with
  | .python => download_with_python server url fn fs
  | d =>
      match ext d url fn with
      | some b => (.success, fsSet fs fn b)
      | none => (.sysExit 1, fs)

/-- The hash library collaborator (hashlib): one hex-digest function per
supported algorithm.  Each is deterministic on the full file content
(streaming 8 KiB chunks through an incremental hasher equals hashing the
concatenation). -/
structure Hashers where
  sha256 : Bytes → String
  sha512 : Bytes → String
  md5 : Bytes → String

/-- Split a character list at the first occurrence of the character
given first (Python str.split(sep, 1)); none when the character does
not occur. -/
def splitFirst (sep : Char) : List Char → Option (List Char × List Char)
  | [] => none
  | c :: rest =>
      if c = sep then some ([], rest)
      else
        match splitFirst sep rest with
        | some (a, v) => some (c :: a, v)
        | none => none

/-- Parse an expected-hash spec (lines 215-219): algorithm=hexvalue when
an equals sign occurs, splitting at the first one; otherwise the
algorithm defaults to sha256 and the whole string is the hex value. -/
def parseHashSpec (s : String) : String × String :=
  match splitFirst '=' s.data with
  | some (a, v) => (String.mk a, String.mk v)
  | none => ("sha256", s)

/-- Algorithm dispatch (lines 224-232): sha256, sha512 and md5 are
supported; any other name yields none (the skip-with-warning branch). -/
def pickHasher (H : Hashers) (alg : String) : Option (Bytes → String) :=
  if alg = "sha256" then some H.sha256
  else if alg = "sha512" then some H.sha512
  else if alg = "md5" then some H.md5
  else none

/-- Observable outcome of verify_file_hash: each constructor is one
return path of the Python function, distinguished by the message it
prints.  skippedNoHash and skippedUnsupported print a warning and return
True; verified returns True; mismatch prints the expected and computed
digests and returns False; fileNotFound prints a file-not-found error
and returns False. -/
inductive VerifyOutcome where
  | skippedNoHash
  | skippedUnsupported (alg : String)
  | verified
  | mismatch (expected computed : String)
  | fileNotFound
deriving DecidableEq

/-- The boolean actually returned to the caller by verify_file_hash. -/
def VerifyOutcome.toBool : VerifyOutcome → Bool
  | .skippedNoHash => true
  | .skippedUnsupported _ => true
  | .verified => true
  | .mismatch _ _ => false
  | .fileNotFound => false

/-- verify_file_hash (lines 208-254).  A falsy expected hash (None or
the empty string) skips verification.  Otherwise the spec is parsed,
the algorithm dispatched (unsupported names skip with a warning, before
the file is opened), the file is streamed through the hasher, and the
computed hex digest is compared with == (exact string equality) against
the expected value.  Opening a missing file raises FileNotFoundError,
caught and turned into the fileNotFound outcome. -/
def verify_file_hash (H : Hashers) (fs : FS) (fn : String)
    (expected : Option String) : VerifyOutcome :=
  match expected with
  | none => .skippedNoHash
  | some e =>
      if e = "" then .skippedNoHash
      else
        let p := parseHashSpec e
        match pickHasher H p.1 with
        | none => .skippedUnsupported p.1
        | some h =>
            match fs fn with
            | none => .fileNotFound
            | some b =>
                let computed := h b
                if computed = p.2 then .verified
                else .mismatch p.2 computed

/-- cleanup (lines 273-279): os.remove the file; an OSError is caught
and only warned about, leaving the filesystem unchanged.  Whether
os.remove succeeds for a given path is part of the environment
(removeOk). -/
def cleanup (removeOk : String → Bool) (fs : FS) (fn : String) : FS :=
  if removeOk fn then fsDel fs fn else fs

/-- Python str.startswith, at the character level. -/
def strStartsWith (s pre : String) : Bool :=
  pre.data.isPrefixOf s.data

/-- is_editable_install (lines 359-361). -/
def is_editable_install (p : String) : Bool :=
  strStartsWith p "-e " || strStartsWith p "--editable"

/-- The external collaborators of one run: the HTTP server, the external
download tools, the pip resolver (none models the RuntimeError raised on
a resolution failure), the pip installer and editable installer (their
exit status as a success boolean), whether os.remove succeeds per path,
and the hash library. -/
structure Env where
  server : Server
  ext : Downloader → String → String → Option Bytes
  resolve : String → Option (String × String × Option String)
  installOk : String → List String → Bool
  editableOk : String → Bool
  removeOk : String → Bool
  hashers : Hashers

/-- Result of install_single_package: a normal boolean return, or a
SystemExit with the given code escaping the function (sys.exit inside
the download path is not caught by the except clause, which only
handles RuntimeError and EnvironmentError). -/
inductive PkgResult where
  | ok (success : Bool)
  | exited (code : Nat)
deriving DecidableEq

/-- install_single_package (lines 390-420): editable specs go straight
to pip; otherwise resolve (a resolution failure is caught and returns
False), download (a sys.exit propagates), verify (False return on a
failed check), install, and cleanup gated on install success and the
artifact existing. -/
def install_single_package (env : Env) (args : List String)
    (dl : Downloader) (pkg : String) (fs : FS) : PkgResult × FS :=
  if is_editable_install pkg then (.ok (env.editableOk pkg), fs)
  else
    match env.resolve pkg with
    | none => (.ok false, fs)
    | some (url, fn, fileHash) =>
        match download_resumable env.server env.ext url fn dl fs with
        | (.sysExit c, fs1) => (.exited c, fs1)
        | (.success, fs1) =>
            if (verify_file_hash env.hashers fs1 fn fileHash).toBool = false then
              (.ok false, fs1)
            else
              let success := env.installOk fn args
              let fs2 :=
                if success ∧ fsExists fs1 fn then cleanup env.removeOk fs1 fn
                else fs1
              (.ok success, fs2)

/-- Outcome of the requirements-file batch loop in main (lines 478-505):
either a SystemExit escaped the loop after attempting the given number
of packages, or the loop ran to completion with a success count and the
list of failed package specs. -/
inductive BatchOutcome where
  | exited (code : Nat) (attempted : Nat) (fs : FS)
  | summary (successes : Nat) (failed : List String) (fs : FS)

/-- The batch loop of main over the parsed package list: each package
goes through install_single_package; True increments the success count,
False appends to failed_packages, and a SystemExit (uncaught: main
catches RuntimeError, EnvironmentError, KeyboardInterrupt and Exception,
none of which SystemExit is) terminates the whole process. -/
def batchLoop (env : Env) (args : List String) (dl : Downloader) :
    List String → FS → Nat → Nat → List String → BatchOutcome
  | [], fs, _, succ, failed => .summary succ failed.reverse fs
  | p :: rest, fs, attempted, succ, failed =>
      match install_single_package env args dl p fs with
      | (.ok true, fs1) => batchLoop env args dl rest fs1 (attempted + 1) (succ + 1) failed
      | (.ok false, fs1) => batchLoop env args dl rest fs1 (attempted + 1) succ (p :: failed)
      | (.exited c, fs1) => .exited c (attempted + 1) fs1

/-- Process exit code of the requirements path of main: the code of an
escaped SystemExit, else 1 when any package failed (lines 498-503) and
0 when all succeeded. -/
def mainBatchExitCode : BatchOutcome → Nat
  | .exited c _ _ => c
  | .summary _ failed _ => if failed.isEmpty then 0 else 1

/-! Concrete collaborators used by witnesses and counterexamples. -/

/-- A concrete, deterministic hash library for witnesses (hashlib is an
external collaborator, so any deterministic instantiation is a valid
run of the program). -/
def H0 : Hashers := ⟨fun _ => "ab", fun _ => "cd", fun _ => "ef"⟩

/-- The empty filesystem. -/
def fsNone : FS := fun _ => none

/-- A filesystem holding a two-byte partial file named f. -/
def fsAB : FS := fun n => if n = "f" then some [1, 2] else none

/-- An environment whose server always fails with a network error. -/
def envT : Env :=
  { server := fun _ _ => .urlError
    ext := fun _ _ _ => none
    resolve := fun _ => some ("u", "f", none)
    installOk := fun _ _ => true
    editableOk := fun _ => true
    removeOk := fun _ => true
    hashers := H0 }

/-- An environment where download, verification, installation and
artifact removal all succeed. -/
def envOK : Env :=
  { server := fun _ _ => .ok none 1 [7]
    ext := fun _ _ _ => none
    resolve := fun _ => some ("u", "f", none)
    installOk := fun _ _ => true
    editableOk := fun _ => true
    removeOk := fun _ => true
    hashers := H0 }

/-- Like envOK except that removing the artifact fails with an OSError. -/
def envWarn : Env :=
  { server := fun _ _ => .ok none 1 [7]
    ext := fun _ _ _ => none
    resolve := fun _ => some ("u", "f", none)
    installOk := fun _ _ => true
    editableOk := fun _ => true
    removeOk := fun _ => false
    hashers := H0 }

/-- A server that answers a range request at offset 2 with full content
(no Content-Range header), i.e. one that ignores the resume request. -/
def serverFull : Server :=
  fun _ rp => if rp = 2 then .ok none 3 [7, 8, 9] else .urlError

/-- A server that honors a range request at offset 2 of a 4-byte
resource, declaring the total via Content-Range. -/
def serverRange : Server :=
  fun _ rp => if rp = 2 then .ok (some 4) 2 [7, 8] else .urlError

/-- A server that answers a range request at offset 2 with status 416
(range not satisfiable). -/
def server416 : Server :=
  fun _ rp => if rp = 2 then .httpError 416 else .urlError

/-! Helper lemmas shared by several claims. -/

/-- Unfolding of install_single_package after a successful download. -/
theorem install_single_package_after_success (env : Env) (args : List String)
    (dl : Downloader) (pkg : String) (fs : FS) (url fn : String)
    (fh : Option String) (fs1 : FS)
    (hne : is_editable_install pkg = false)
    (hres : env.resolve pkg = some (url, fn, fh))
    (hdl : download_resumable env.server env.ext url fn dl fs = (.success, fs1)) :
    install_single_package env args dl pkg fs =
      if (verify_file_hash env.hashers fs1 fn fh).toBool = false then (.ok false, fs1)
      else (.ok (env.installOk fn args),
        if env.installOk fn args ∧ fsExists fs1 fn then cleanup env.removeOk fs1 fn
        else fs1) := by
  simp [install_single_package, hne, hres, hdl]

/-- A sha256-tagged hash spec string is never empty. -/
theorem sha256_spec_ne_empty (hv : String) : ("sha256=" ++ hv) ≠ "" := by
  intro h
  have hd : ("sha256=" ++ hv).data = "".data := by rw [h]
  simp [String.data_append] at hd

/-- Parsing a sha256-tagged spec splits at the first equals sign. -/
theorem parseHashSpec_sha256 (hv : String) :
    parseHashSpec ("sha256=" ++ hv) = ("sha256", hv) := by
  unfold parseHashSpec
  have h : ("sha256=" ++ hv).data = "sha256=".data ++ hv.data := by
    simp [String.data_append]
  rw [h]
  simp [splitFirst]

/-- Claim C1, counterexample: a batch of two packages whose first
package hits a network TransferError during download.  The claim says
the error is converted into a per-package failure and the loop
continues; instead the batch loop terminates as an escaped sys.exit(1)
(constructor exited, not summary) after only 1 of the 2 packages was
attempted, because install_single_package catches only RuntimeError and
EnvironmentError while the download path raises SystemExit. -/
theorem C1_counterexample :
    batchLoop envT [] .python ["a", "b"] fsNone 0 0 [] = .exited 1 1 fsNone := rfl

/-- Claim C1, amended: a TransferError (network, transport or
subprocess download failure, surfaced as sys.exit(1) by the download
layer) is not caught at the per-package boundary; it terminates the
whole batch loop immediately with process exit code 1, and the
remaining packages of the batch are never attempted. -/
theorem C1_transfer_error_terminates_batch (env : Env) (args : List String)
    (dl : Downloader) (pkg : String) (rest : List String) (fs : FS)
    (a s : Nat) (f : List String) (url fn : String) (fh : Option String)
    (fs1 : FS)
    (hne : is_editable_install pkg = false)
    (hres : env.resolve pkg = some (url, fn, fh))
    (hdl : download_resumable env.server env.ext url fn dl fs = (.sysExit 1, fs1)) :
    batchLoop env args dl (pkg :: rest) fs a s f = .exited 1 (a + 1) fs1 := by
  simp [batchLoop, install_single_package, hne, hres, hdl]

/-- Witness for C1_transfer_error_terminates_batch at a concrete
two-package batch whose first download fails with a network error. -/
theorem C1_transfer_error_terminates_batch_witness :
    is_editable_install "a" = false ∧
    envT.resolve "a" = some ("u", "f", none) ∧
    download_resumable envT.server envT.ext "u" "f" .python fsNone = (.sysExit 1, fsNone) ∧
    batchLoop envT [] .python ["a", "b"] fsNone 0 0 [] = .exited 1 1 fsNone :=
  ⟨rfl, rfl, rfl,
    C1_transfer_error_terminates_batch envT [] .python "a" ["b"] fsNone 0 0 []
      "u" "f" none fsNone rfl rfl rfl⟩

/-- Claim C2: when a non-empty partial file exists (so a byte range was
requested) and the server answers with full content carrying no
Content-Range header, the transfer restarts from offset 0 in overwrite
mode and the completed target file contains exactly the fresh full
response body, never old-partial-bytes followed by the full content. -/
theorem C2_full_content_fallback_overwrites (server : Server)
    (url fn : String) (fs : FS) (p : Bytes) (cl : Nat) (body : Bytes)
    (hfile : fs fn = some p) (hne : p ≠ [])
    (hsrv : server url p.length = .ok none cl body) :
    (download_with_python server url fn fs).1 = .success ∧
    (download_with_python server url fn fs).2 fn = some body := by
  have hlen : 0 < p.length := List.length_pos.mpr hne
  simp [download_with_python, resumePos, hfile, hsrv, fsSet, hlen]

/-- Witness for C2_full_content_fallback_overwrites: partial file of 2
bytes, server ignores the range request and sends a 3-byte full body;
the final file is exactly that body. -/
theorem C2_full_content_fallback_overwrites_witness :
    fsAB "f" = some [1, 2] ∧
    ([1, 2] : Bytes) ≠ [] ∧
    serverFull "u" 2 = .ok none 3 [7, 8, 9] ∧
    ((download_with_python serverFull "u" "f" fsAB).1 = .success ∧
      (download_with_python serverFull "u" "f" fsAB).2 "f" = some [7, 8, 9]) :=
  ⟨rfl, by decide, rfl,
    C2_full_content_fallback_overwrites serverFull "u" "f" fsAB [1, 2] 3 [7, 8, 9]
      rfl (by decide) rfl⟩

/-- Claim C3: with N bytes already on disk and a server that honors the
requested range at offset N (declaring the total size via
Content-Range and sending the remaining bytes), a completed transfer
appends in append mode only: the first N bytes of the resulting file
are the original on-disk bytes and the total length equals the
server-declared total size. -/
theorem C3_resume_preserves_on_disk_bytes (server : Server)
    (url fn : String) (fs : FS) (p : Bytes) (total cl : Nat) (body : Bytes)
    (hfile : fs fn = some p) (hN : 0 < p.length)
    (hsrv : server url p.length = .ok (some total) cl body)
    (hlen : p.length + body.length = total) :
    (download_with_python server url fn fs).1 = .success ∧
    ∃ q, (download_with_python server url fn fs).2 fn = some q ∧
      q.take p.length = p ∧ q.length = total := by
  refine ⟨?_, p ++ body, ?_, ?_, ?_⟩
  · simp [download_with_python, resumePos, hfile, hsrv]
  · simp [download_with_python, resumePos, hfile, hsrv, fsSet]
  · exact List.take_left p body
  · simp [List.length_append, hlen]

/-- Witness for C3_resume_preserves_on_disk_bytes: 2 bytes on disk, a
4-byte resource, server sends the remaining 2 bytes with Content-Range
total 4. -/
theorem C3_resume_preserves_on_disk_bytes_witness :
    fsAB "f" = some [1, 2] ∧
    0 < ([1, 2] : Bytes).length ∧
    serverRange "u" 2 = .ok (some 4) 2 [7, 8] ∧
    (([1, 2] : Bytes).length + ([7, 8] : Bytes).length = 4) ∧
    ((download_with_python serverRange "u" "f" fsAB).1 = .success ∧
      ∃ q, (download_with_python serverRange "u" "f" fsAB).2 "f" = some q ∧
        q.take ([1, 2] : Bytes).length = [1, 2] ∧ q.length = 4) :=
  ⟨rfl, by decide, rfl, by decide,
    C3_resume_preserves_on_disk_bytes serverRange "u" "f" fsAB [1, 2] 4 2 [7, 8]
      rfl (by decide) rfl (by decide)⟩

/-- Claim C4: the downloaded artifact is deleted if and only if the
transfer succeeded, verification returned a truthy outcome (verified or
skipped) and the installer reported success.  First conjunct: after a
successful transfer, the artifact is gone from the resulting filesystem
iff verification passed and installation succeeded; in particular an
installation failure leaves the artifact untouched.  Second conjunct: a
failed transfer (escaped sys.exit) leaves the filesystem exactly as the
download path left it, so nothing is deleted. -/
theorem C4_cleanup_gated_on_install (env : Env) (args : List String)
    (dl : Downloader) (pkg : String) (fs : FS) (url fn : String)
    (fh : Option String)
    (hne : is_editable_install pkg = false)
    (hres : env.resolve pkg = some (url, fn, fh))
    (hremove : env.removeOk fn = true) :
    (∀ fs1, download_resumable env.server env.ext url fn dl fs = (.success, fs1) →
      fsExists fs1 fn = true →
      (((install_single_package env args dl pkg fs).2 fn = none) ↔
        ((verify_file_hash env.hashers fs1 fn fh).toBool = true ∧
          env.installOk fn args = true)) ∧
      (env.installOk fn args = false →
        (install_single_package env args dl pkg fs).2 fn = fs1 fn)) ∧
    (∀ c fs1, download_resumable env.server env.ext url fn dl fs = (.sysExit c, fs1) →
      (install_single_package env args dl pkg fs).2 fn = fs1 fn) := by
  constructor
  · intro fs1 hdl hex
    rw [install_single_package_after_success env args dl pkg fs url fn fh fs1 hne hres hdl]
    obtain ⟨b, hb⟩ := Option.isSome_iff_exists.mp hex
    by_cases hv : (verify_file_hash env.hashers fs1 fn fh).toBool = true
    · by_cases hi : env.installOk fn args = true
      · simp [hv, hi, hex, cleanup, hremove, fsDel]
      · simp [hv, hi, hex, hb]
    · have hv' : (verify_file_hash env.hashers fs1 fn fh).toBool = false := by
        simpa using hv
      simp [hv', hb, hv]
  · intro c fs1 hdl
    simp [install_single_package, hne, hres, hdl]

/-- Witness for C4_cleanup_gated_on_install: a fully successful run, in
which the deleted-iff equivalence is witnessed concretely. -/
theorem C4_cleanup_gated_on_install_witness :
    is_editable_install "a" = false ∧
    envOK.resolve "a" = some ("u", "f", none) ∧
    envOK.removeOk "f" = true ∧
    download_resumable envOK.server envOK.ext "u" "f" .python fsNone =
      (.success, fsSet fsNone "f" [7]) ∧
    fsExists (fsSet fsNone "f" [7]) "f" = true ∧
    (((install_single_package envOK [] .python "a" fsNone).2 "f" = none) ↔
      ((verify_file_hash envOK.hashers (fsSet fsNone "f" [7]) "f" none).toBool = true ∧
        envOK.installOk "f" [] = true)) :=
  ⟨rfl, rfl, rfl, rfl, rfl,
    ((C4_cleanup_gated_on_install envOK [] .python "a" fsNone "u" "f" none
      rfl rfl rfl).1 (fsSet fsNone "f" [7]) rfl rfl).1⟩

/-- Claim C5, counterexample: the expected digest AB differs from the
computed digest ab only in letter case (mapping both to lower case
gives the same characters), yet verify_file_hash returns mismatch, not
verified: the comparison at line 240 is exact (case-sensitive) string
equality. -/
theorem C5_counterexample :
    fsAB "f" = some [1, 2] ∧
    H0.sha256 [1, 2] = "ab" ∧
    "AB".data.map Char.toLower = "ab".data ∧
    ("AB" : String) ≠ "ab" ∧
    verify_file_hash H0 fsAB "f" (some "sha256=AB") = .mismatch "AB" "ab" :=
  ⟨rfl, rfl, by decide, by decide, rfl⟩

/-- Claim C5, amended: digest comparison is exact string equality on
the hex strings — the computed digest is lowercase hex, and any
expected value different from it (even one differing only in letter
case) yields mismatch, never verified. -/
theorem C5_case_sensitive_compare (H : Hashers) (fs : FS) (fn : String)
    (b : Bytes) (hv : String)
    (hfile : fs fn = some b) (hne : hv ≠ H.sha256 b) :
    verify_file_hash H fs fn (some ("sha256=" ++ hv)) = .mismatch hv (H.sha256 b) := by
  simp [verify_file_hash, sha256_spec_ne_empty, parseHashSpec_sha256, pickHasher, hfile,
    Ne.symm hne]

/-- Witness for C5_case_sensitive_compare: the uppercase variant of the
computed digest is rejected as a mismatch. -/
theorem C5_case_sensitive_compare_witness :
    fsAB "f" = some [1, 2] ∧
    ("AB" : String) ≠ H0.sha256 [1, 2] ∧
    verify_file_hash H0 fsAB "f" (some ("sha256=" ++ "AB")) =
      .mismatch "AB" (H0.sha256 [1, 2]) :=
  ⟨rfl, by decide, C5_case_sensitive_compare H0 fsAB "f" [1, 2] "AB" rfl (by decide)⟩

/-- Claim C6: when the file is missing at verification time (and the
digest spec names a supported algorithm, so the file is actually
opened), verify_file_hash takes the FileNotFoundError path, a hard
failure (returned boolean false) whose outcome — the file-not-found
diagnostic — is distinct from the mismatch outcome that reports
expected and computed digests. -/
theorem C6_missing_file_distinct_failure (H : Hashers) (fs : FS)
    (fn s alg hv : String) (hasher : Bytes → String)
    (hs : s ≠ "") (hparse : parseHashSpec s = (alg, hv))
    (hpick : pickHasher H alg = some hasher)
    (hfile : fs fn = none) :
    verify_file_hash H fs fn (some s) = .fileNotFound ∧
    VerifyOutcome.fileNotFound.toBool = false ∧
    ∀ e c, VerifyOutcome.fileNotFound ≠ VerifyOutcome.mismatch e c := by
  refine ⟨?_, rfl, fun e c => by simp⟩
  simp [verify_file_hash, hs, hparse, hpick, hfile]

/-- Witness for C6_missing_file_distinct_failure: missing file f with a
well-formed sha256 spec. -/
theorem C6_missing_file_distinct_failure_witness :
    ("sha256=ab" : String) ≠ "" ∧
    parseHashSpec "sha256=ab" = ("sha256", "ab") ∧
    pickHasher H0 "sha256" = some H0.sha256 ∧
    fsNone "f" = none ∧
    verify_file_hash H0 fsNone "f" (some "sha256=ab") = .fileNotFound :=
  ⟨by decide, rfl, rfl, rfl,
    (C6_missing_file_distinct_failure H0 fsNone "f" "sha256=ab" "sha256" "ab"
      H0.sha256 (by decide) rfl rfl rfl).1⟩

/-- Claim C7: with a file of positive size N on disk and a server that
answers the range request at offset N with status 416 (range not
satisfiable, the already-complete case), the transfer returns success
immediately and the filesystem is unchanged — no bytes are written. -/
theorem C7_range_not_satisfiable_success (server : Server)
    (url fn : String) (fs : FS) (p : Bytes)
    (hfile : fs fn = some p) (hN : 0 < p.length)
    (hsrv : server url p.length = .httpError 416) :
    download_with_python server url fn fs = (.success, fs) := by
  simp [download_with_python, resumePos, hfile, hsrv]

/-- Witness for C7_range_not_satisfiable_success: a 2-byte file and a
server that answers 416 at offset 2. -/
theorem C7_range_not_satisfiable_success_witness :
    fsAB "f" = some [1, 2] ∧
    0 < ([1, 2] : Bytes).length ∧
    server416 "u" 2 = .httpError 416 ∧
    download_with_python server416 "u" "f" fsAB = (.success, fsAB) :=
  ⟨rfl, by decide, rfl,
    C7_range_not_satisfiable_success server416 "u" "f" fsAB [1, 2]
      rfl (by decide) rfl⟩

/-- Claim C8: verification with an absent digest spec returns the
skipped-with-warning outcome, and a digest spec naming an algorithm
outside sha256/sha512/md5 returns the unsupported-skip outcome; both
are truthy (treated as success by the caller) and, being values of a
total function, never raise. -/
theorem C8_digest_leniency (H : Hashers) (fs : FS) (fn s alg hv : String)
    (hs : s ≠ "") (hparse : parseHashSpec s = (alg, hv))
    (h1 : alg ≠ "sha256") (h2 : alg ≠ "sha512") (h3 : alg ≠ "md5") :
    verify_file_hash H fs fn none = .skippedNoHash ∧
    verify_file_hash H fs fn (some s) = .skippedUnsupported alg ∧
    (verify_file_hash H fs fn none).toBool = true ∧
    (verify_file_hash H fs fn (some s)).toBool = true := by
  have hu : verify_file_hash H fs fn (some s) = .skippedUnsupported alg := by
    simp [verify_file_hash, hs, hparse, pickHasher, h1, h2, h3]
  exact ⟨rfl, hu, rfl, by rw [hu]; rfl⟩

/-- Witness for C8_digest_leniency at the garbled spec foo=bar of the
specification. -/
theorem C8_digest_leniency_witness :
    ("foo=bar" : String) ≠ "" ∧
    parseHashSpec "foo=bar" = ("foo", "bar") ∧
    verify_file_hash H0 fsAB "f" none = .skippedNoHash ∧
    verify_file_hash H0 fsAB "f" (some "foo=bar") = .skippedUnsupported "foo" ∧
    (verify_file_hash H0 fsAB "f" (some "foo=bar")).toBool = true :=
  ⟨by decide, rfl, rfl,
    (C8_digest_leniency H0 fsAB "f" "foo=bar" "foo" "bar"
      (by decide) rfl (by decide) (by decide) (by decide)).2.1,
    (C8_digest_leniency H0 fsAB "f" "foo=bar" "foo" "bar"
      (by decide) rfl (by decide) (by decide) (by decide)).2.2.2⟩

/-- Claim C9: the digest round trip.  For a file with contents b,
verifying against sha256= followed by the computed digest of b returns
verified, and verifying against sha256= followed by any hex string
different from that digest (in any character) returns mismatch. -/
theorem C9_digest_round_trip (H : Hashers) (fs : FS) (fn : String)
    (b : Bytes) (hv : String)
    (hfile : fs fn = some b) :
    verify_file_hash H fs fn (some ("sha256=" ++ H.sha256 b)) = .verified ∧
    (hv ≠ H.sha256 b →
      verify_file_hash H fs fn (some ("sha256=" ++ hv)) = .mismatch hv (H.sha256 b)) := by
  constructor
  · simp [verify_file_hash, sha256_spec_ne_empty, parseHashSpec_sha256, pickHasher, hfile]
  · intro hne
    simp [verify_file_hash, sha256_spec_ne_empty, parseHashSpec_sha256, pickHasher, hfile,
      Ne.symm hne]

/-- Witness for C9_digest_round_trip on a concrete file and the altered
hex string xx. -/
theorem C9_digest_round_trip_witness :
    fsAB "f" = some [1, 2] ∧
    ("xx" : String) ≠ H0.sha256 [1, 2] ∧
    verify_file_hash H0 fsAB "f" (some ("sha256=" ++ H0.sha256 [1, 2])) = .verified ∧
    verify_file_hash H0 fsAB "f" (some ("sha256=" ++ "xx")) =
      .mismatch "xx" (H0.sha256 [1, 2]) :=
  ⟨rfl, by decide,
    (C9_digest_round_trip H0 fsAB "f" [1, 2] "xx" rfl).1,
    (C9_digest_round_trip H0 fsAB "f" [1, 2] "xx" rfl).2 (by decide)⟩

/-- Claim C10: when installation succeeds but removing the artifact
fails with an OSError, cleanup only warns (it is a total function whose
OSError branch leaves the filesystem unchanged), the per-package result
is still success, and a one-package batch exits with code 0. -/
theorem C10_cleanup_failure_only_warns (env : Env) (args : List String)
    (dl : Downloader) (pkg : String) (fs : FS) (url fn : String)
    (fh : Option String) (fs1 : FS)
    (hne : is_editable_install pkg = false)
    (hres : env.resolve pkg = some (url, fn, fh))
    (hdl : download_resumable env.server env.ext url fn dl fs = (.success, fs1))
    (hv : (verify_file_hash env.hashers fs1 fn fh).toBool = true)
    (hi : env.installOk fn args = true)
    (hr : env.removeOk fn = false) :
    install_single_package env args dl pkg fs = (.ok true, fs1) ∧
    mainBatchExitCode (batchLoop env args dl [pkg] fs 0 0 []) = 0 := by
  have hinst : install_single_package env args dl pkg fs = (.ok true, fs1) := by
    rw [install_single_package_after_success env args dl pkg fs url fn fh fs1 hne hres hdl]
    simp [hv, hi, cleanup, hr]
  refine ⟨hinst, ?_⟩
  simp [batchLoop, hinst, mainBatchExitCode]

/-- Witness for C10_cleanup_failure_only_warns: a successful install in
an environment where os.remove fails; the result is success with exit
code 0 and the artifact still on disk. -/
theorem C10_cleanup_failure_only_warns_witness :
    is_editable_install "a" = false ∧
    envWarn.resolve "a" = some ("u", "f", none) ∧
    download_resumable envWarn.server envWarn.ext "u" "f" .python fsNone =
      (.success, fsSet fsNone "f" [7]) ∧
    (verify_file_hash envWarn.hashers (fsSet fsNone "f" [7]) "f" none).toBool = true ∧
    envWarn.installOk "f" [] = true ∧
    envWarn.removeOk "f" = false ∧
    (install_single_package envWarn [] .python "a" fsNone =
        (.ok true, fsSet fsNone "f" [7]) ∧
      mainBatchExitCode (batchLoop envWarn [] .python ["a"] fsNone 0 0 []) = 0) :=
  ⟨rfl, rfl, rfl, rfl, rfl, rfl,
    C10_cleanup_failure_only_warns envWarn [] .python "a" fsNone "u" "f" none
      (fsSet fsNone "f" [7]) rfl rfl rfl rfl rfl rfl⟩

end Rpip
